import Mathlib

/-!
Verification of the BarbaraPDF relay server (src/server.js).

The server is a single-endpoint Express relay: it validates a JSON request,
builds a chat prompt, calls the OpenAI chat-completions API, and maps
upstream errors to HTTP status codes.  We embed the handler shallowly:

* environment variables are `Option String` (a variable may be unset, or set
  to any string, including the empty string);
* JavaScript string truthiness (`!s` is true exactly for `undefined`/`null`
  and the empty string) is `optTruthy`;
* the single awaited upstream call is a parameter of the handler
  (`UpstreamOutcome`), so the handler becomes a pure function from
  environment, request and upstream outcome to an observable trace
  (HTTP status, body fields, whether the upstream was contacted, which
  model, which messages).
-/

namespace BarbaraPDF

/-- The process environment, restricted to the variables the server reads.
`none` means the variable is unset; `some s` that it is set (possibly to the
empty string). -/
structure Env where
  OPENAI_API_KEY : Option String
  NODE_ENV : Option String
  ALLOWED_ORIGINS : Option String
deriving Repr, DecidableEq

/-- JavaScript truthiness of an optional string: `undefined` and the empty
string are falsy, every other string is truthy. -/
def optTruthy : Option String → Bool
  | none => false
  | some s => !s.isEmpty

/-- One entry of `conversationHistory`: a role tag, text content, and an
optional embedded image reference (`msg.image`). -/
structure HistMsg where
  role : String
  content : String
  image : Option String
deriving Repr, DecidableEq

/-- Body of a `POST /api/tutor` request.  Optional JSON fields are `Option`;
the code destructures with defaults `conversationHistory = []`,
`selectedText = ''`. -/
structure TutorRequest where
  message : Option String
  conversationHistory : List HistMsg
  selectedText : Option String
  image : Option String
deriving Repr, DecidableEq

/-- One part of a multi-part content block sent to the model. -/
inductive ContentPart where
  | text (t : String)
  | imageUrl (url : String)
deriving Repr, DecidableEq

/-- Content of a chat message: plain text, or a list of parts. -/
inductive MsgContent where
  | plain (s : String)
  | parts (ps : List ContentPart)
deriving Repr, DecidableEq

/-- A message in the array handed to `openai.chat.completions.create`. -/
structure ChatMessage where
  role : String
  content : MsgContent
deriving Repr, DecidableEq

/-- Token-usage metadata reported by the upstream API. -/
structure Usage where
  prompt_tokens : Nat
  completion_tokens : Nat
  total_tokens : Nat
deriving Repr, DecidableEq

/-- Outcome of the single awaited upstream call: success with the generated
text and usage, or a thrown error carrying an optional HTTP status
(`error.status`) and a message (`error.message`). -/
inductive UpstreamOutcome where
  | ok (content : String) (usage : Usage)
  | err (status : Option Nat) (message : String)
deriving Repr, DecidableEq

/-- Model of the JavaScript `String.prototype.trim`: drop leading and
trailing whitespace characters. -/
def jsTrim (s : String) : String :=
  String.mk (((s.data.dropWhile Char.isWhitespace).reverse.dropWhile
    Char.isWhitespace).reverse)

/-- The request-validation test of the handler:
`(!message || message.trim() === '') && !image`. -/
def invalidRequest (req : TutorRequest) : Bool :=
  (!optTruthy req.message || (jsTrim (req.message.getD "") == "")) && !optTruthy req.image

/-- The fixed system prompt, with `selectedText` interpolated when truthy. -/
def systemPrompt (selectedText : String) : String :=
  "You are BarbaraIA, an educational AI tutor for K-12 students. Your role is to:\n" ++
  "- Explain concepts clearly and simply\n" ++
  "- Break down complex topics into understandable parts\n" ++
  "- Provide step-by-step solutions to problems\n" ++
  "- Give relevant examples\n" ++
  "- Encourage critical thinking\n" ++
  "- Be patient and supportive\n" ++
  "- Adapt explanations to student level\n" ++
  "- When analyzing images: describe what you see, explain diagrams, solve visual math problems, read handwriting\n\n" ++
  (if !selectedText.isEmpty then
    "The student has selected this text from their PDF: \"" ++ selectedText ++ "\""
   else "") ++
  "\n\nAlways respond in a friendly, educational manner. If asked to solve a problem, guide the student through the solution rather than just giving the answer."

/-- Translation of one `conversationHistory` entry into the model-call
format (`conversationHistory.map(msg => ...)`): a truthy `msg.image` yields
a two-part content block of text then image reference; otherwise plain
text content. -/
def mapHistMsg (msg : HistMsg) : ChatMessage :=
  if optTruthy msg.image then
    { role := if msg.role == "user" then "user" else "assistant"
      content := .parts [.text msg.content, .imageUrl (msg.image.getD "")] }
  else
    { role := if msg.role == "user" then "user" else "assistant"
      content := .plain msg.content }

/-- The current user message appended last: with a truthy `image`, a
two-part block whose text is `message || 'What do you see in this image?'`;
otherwise plain `message`. -/
def currentMessage (req : TutorRequest) : ChatMessage :=
  if optTruthy req.image then
    { role := "user"
      content := .parts [
        .text (if optTruthy req.message then req.message.getD ""
               else "What do you see in this image?"),
        .imageUrl (req.image.getD "") ] }
  else
    { role := "user", content := .plain (req.message.getD "") }

/-- The full messages array: system prompt, mapped history, current
message. -/
def buildMessages (req : TutorRequest) : List ChatMessage :=
  { role := "system", content := .plain (systemPrompt (req.selectedText.getD "")) } ::
    (req.conversationHistory.map mapHistMsg ++ [currentMessage req])

/-- Observable outcome of one `POST /api/tutor` request: the HTTP status and
JSON body fields sent back, together with whether the upstream API was
contacted, and if so with which model and messages array. -/
structure HandlerResult where
  status : Nat
  error : Option String
  details : Option String
  responseText : Option String
  usage : Option Usage
  upstreamCalled : Bool
  modelUsed : Option String
  messagesSent : Option (List ChatMessage)
deriving Repr, DecidableEq

/-- The `POST /api/tutor` handler as a pure function of the environment, the
request body, and the outcome of the (single) upstream call. -/
def handleTutor (env : Env) (req : TutorRequest) (upstream : UpstreamOutcome) :
    HandlerResult :=
  if invalidRequest req then
    { status := 400, error := some "Message or image is required"
      details := none, responseText := none, usage := none
      upstreamCalled := false, modelUsed := none, messagesSent := none }
  else if !optTruthy env.OPENAI_API_KEY then
    { status := 500
      error := some "OpenAI API key not configured. Please set OPENAI_API_KEY environment variable."
      details := none, responseText := none, usage := none
      upstreamCalled := false, modelUsed := none, messagesSent := none }
  else
    let model : String := if optTruthy req.image then "gpt-4o" else "gpt-4o-mini"
    let msgs := buildMessages req
    match upstream with
    | .ok content usage =>
      { status := 200, error := none, details := none
        responseText := some content, usage := some usage
        upstreamCalled := true, modelUsed := some model, messagesSent := some msgs }
    | .err st m =>
      if st = some 401 then
        { status := 401, error := some "Invalid OpenAI API key"
          details := none, responseText := none, usage := none
          upstreamCalled := true, modelUsed := some model, messagesSent := some msgs }
      else if st = some 429 then
        { status := 429, error := some "Rate limit exceeded. Please try again later."
          details := none, responseText := none, usage := none
          upstreamCalled := true, modelUsed := some model, messagesSent := some msgs }
      else if st = some 500 then
        { status := 500, error := some "OpenAI service error. Please try again later."
          details := none, responseText := none, usage := none
          upstreamCalled := true, modelUsed := some model, messagesSent := some msgs }
      else
        { status := 500, error := some "Failed to get AI response"
          details := if env.NODE_ENV = some "development" then some m else none
          responseText := none, usage := none
          upstreamCalled := true, modelUsed := some model, messagesSent := some msgs }

/-- Body of the `GET /health` response. -/
structure HealthBody where
  status : String
  message : String
  openaiConfigured : Bool
deriving Repr, DecidableEq

/-- The `GET /health` handler: HTTP status together with the JSON body. -/
def healthHandler (env : Env) : Nat × HealthBody :=
  (200,
    { status := "ok"
      message := "BarbaraPDF Backend Running"
      openaiConfigured := optTruthy env.OPENAI_API_KEY })

/-- The configured allow-list:
`process.env.ALLOWED_ORIGINS?.split(',') || [two fixed origins]`.  When the
variable is set, `split` always yields a (truthy) array, so the fallback
applies exactly when the variable is unset. -/
def allowedOrigins (env : Env) : List String :=
  match env.ALLOWED_ORIGINS with
  | some s => s.splitOn ","
  | none => ["http://localhost:5173", "https://barbarapdfeditor.net"]

/-- The CORS origin callback: `if (!origin)` the request is allowed, so a
falsy origin (header absent, or present with the empty string as value) is
let through; otherwise the origin is allowed exactly when it is in the
allow-list. -/
def corsAllows (env : Env) (origin : Option String) : Bool :=
  if !optTruthy origin then true
  else (allowedOrigins env).contains (origin.getD "")

/-- The middleware pipeline for `POST /api/tutor`: the CORS layer runs
before the handler, so a rejected origin yields no handler result at all. -/
def serveTutor (env : Env) (origin : Option String) (req : TutorRequest)
    (upstream : UpstreamOutcome) : Option HandlerResult :=
  if corsAllows env origin then some (handleTutor env req upstream) else none

end BarbaraPDF

namespace BarbaraPDF

/-! ### Helper lemmas -/

/-- The last element of a nonempty list ending in a singleton append. -/
theorem getLast?_cons_append_singleton {α : Type} (x b : α) (l : List α) :
    (x :: (l ++ [b])).getLast? = some b := by
  have h : x :: (l ++ [b]) = (x :: l) ++ b :: [] := by simp
  rw [h, List.getLast?_append_cons]
  rfl

/-- A request whose message is absent or whitespace-only and whose image is
absent fails validation. -/
theorem invalidRequest_of_empty (req : TutorRequest)
    (hmsg : req.message = none ∨ ∃ s, req.message = some s ∧ jsTrim s = "")
    (himg : req.image = none) : invalidRequest req = true := by
  unfold invalidRequest
  rcases hmsg with h | ⟨s, hs, hts⟩
  · rw [h, himg]; rfl
  · rw [hs, himg]
    simp [optTruthy, hts]

/-- A request carrying a truthy image always passes validation. -/
theorem invalidRequest_of_image (req : TutorRequest)
    (himg : optTruthy req.image = true) : invalidRequest req = false := by
  unfold invalidRequest
  rw [himg]
  simp

/-- When validation passes and the key is configured, the handler contacts
the upstream API with the selected model and the built messages array. -/
theorem handleTutor_reaches
    (env : Env) (req : TutorRequest) (upstream : UpstreamOutcome)
    (hval : invalidRequest req = false)
    (hkey : optTruthy env.OPENAI_API_KEY = true) :
    (handleTutor env req upstream).upstreamCalled = true ∧
    (handleTutor env req upstream).modelUsed =
      some (if optTruthy req.image then "gpt-4o" else "gpt-4o-mini") ∧
    (handleTutor env req upstream).messagesSent = some (buildMessages req) := by
  unfold handleTutor
  rw [hval, hkey]
  rcases upstream with ⟨c, u⟩ | ⟨st, m⟩
  · simp
  · simp only [Bool.false_eq_true, if_false, Bool.not_true]
    split_ifs <;> simp

/-! ### Claims -/

/-- C1: a request whose `message` is absent, empty, or whitespace-only and
whose `image` is absent is answered with HTTP 400 and the InvalidRequest
error, and the upstream model API is not contacted. -/
theorem tutor_rejects_empty_request
    (env : Env) (req : TutorRequest) (upstream : UpstreamOutcome)
    (hmsg : req.message = none ∨ ∃ s, req.message = some s ∧ jsTrim s = "")
    (himg : req.image = none) :
    (handleTutor env req upstream).status = 400 ∧
    (handleTutor env req upstream).error = some "Message or image is required" ∧
    (handleTutor env req upstream).upstreamCalled = false := by
  have hinv := invalidRequest_of_empty req hmsg himg
  simp [handleTutor, hinv]

/-- C1 witness at a whitespace-only message and no image, with the key
configured and a successful upstream on hand. -/
theorem tutor_rejects_empty_request_witness :
    (handleTutor ⟨some "sk-key", none, none⟩
      ⟨some "   ", [], none, none⟩ (.ok "hi" ⟨1, 1, 2⟩)).status = 400 ∧
    (handleTutor ⟨some "sk-key", none, none⟩
      ⟨some "   ", [], none, none⟩ (.ok "hi" ⟨1, 1, 2⟩)).error =
        some "Message or image is required" ∧
    (handleTutor ⟨some "sk-key", none, none⟩
      ⟨some "   ", [], none, none⟩ (.ok "hi" ⟨1, 1, 2⟩)).upstreamCalled = false :=
  tutor_rejects_empty_request ⟨some "sk-key", none, none⟩
    ⟨some "   ", [], none, none⟩ (.ok "hi" ⟨1, 1, 2⟩)
    (Or.inr ⟨"   ", rfl, by decide⟩) rfl

/-- C2 counterexample: the claim quantifies over every request body, but the
validation check runs before the credential check, so with the key unset the
all-empty request is still answered with 400, not 500. -/
theorem tutor_misconfigured_counterexample :
    (handleTutor ⟨none, none, none⟩ ⟨none, [], none, none⟩
      (.err none "boom")).status = 400 ∧
    (handleTutor ⟨none, none, none⟩ ⟨none, [], none, none⟩
      (.err none "boom")).status ≠ 500 := by
  decide

/-- C2 (amended): for every request that passes input validation, if the
upstream credential is not configured (unset or empty), the handler returns
HTTP 500 with the misconfiguration message and does not contact upstream. -/
theorem tutor_misconfigured
    (env : Env) (req : TutorRequest) (upstream : UpstreamOutcome)
    (hval : invalidRequest req = false)
    (hkey : optTruthy env.OPENAI_API_KEY = false) :
    (handleTutor env req upstream).status = 500 ∧
    (handleTutor env req upstream).error =
      some "OpenAI API key not configured. Please set OPENAI_API_KEY environment variable." ∧
    (handleTutor env req upstream).upstreamCalled = false := by
  simp [handleTutor, hval, hkey]

/-- C2 witness: a valid text request against an environment with no key. -/
theorem tutor_misconfigured_witness :
    (handleTutor ⟨none, none, none⟩ ⟨some "What is 2+2?", [], none, none⟩
      (.err none "boom")).status = 500 ∧
    (handleTutor ⟨none, none, none⟩ ⟨some "What is 2+2?", [], none, none⟩
      (.err none "boom")).error =
      some "OpenAI API key not configured. Please set OPENAI_API_KEY environment variable." ∧
    (handleTutor ⟨none, none, none⟩ ⟨some "What is 2+2?", [], none, none⟩
      (.err none "boom")).upstreamCalled = false :=
  tutor_misconfigured ⟨none, none, none⟩ ⟨some "What is 2+2?", [], none, none⟩
    (.err none "boom") (by decide) rfl

/-- C3: whenever the request reaches the upstream call, the model selected
is gpt-4o exactly when the request carries a truthy (non-empty) image, and
gpt-4o-mini otherwise. -/
theorem tutor_model_selection
    (env : Env) (req : TutorRequest) (upstream : UpstreamOutcome)
    (hval : invalidRequest req = false)
    (hkey : optTruthy env.OPENAI_API_KEY = true) :
    (handleTutor env req upstream).upstreamCalled = true ∧
    (handleTutor env req upstream).modelUsed =
      some (if optTruthy req.image then "gpt-4o" else "gpt-4o-mini") ∧
    ((handleTutor env req upstream).modelUsed = some "gpt-4o" ↔
      optTruthy req.image = true) := by
  obtain ⟨hc, hm, -⟩ := handleTutor_reaches env req upstream hval hkey
  refine ⟨hc, hm, ?_⟩
  rw [hm]
  cases h : optTruthy req.image <;> simp [h]

/-- C3 witness: an image-bearing request with empty message selects gpt-4o. -/
theorem tutor_model_selection_witness :
    (handleTutor ⟨some "sk-key", none, none⟩
      ⟨some "", [], none, some "data:image/png;base64,AAAA"⟩
      (.ok "hi" ⟨1, 1, 2⟩)).upstreamCalled = true ∧
    (handleTutor ⟨some "sk-key", none, none⟩
      ⟨some "", [], none, some "data:image/png;base64,AAAA"⟩
      (.ok "hi" ⟨1, 1, 2⟩)).modelUsed =
      some (if optTruthy (some "data:image/png;base64,AAAA") then "gpt-4o"
            else "gpt-4o-mini") ∧
    ((handleTutor ⟨some "sk-key", none, none⟩
      ⟨some "", [], none, some "data:image/png;base64,AAAA"⟩
      (.ok "hi" ⟨1, 1, 2⟩)).modelUsed = some "gpt-4o" ↔
      optTruthy (some "data:image/png;base64,AAAA") = true) :=
  tutor_model_selection ⟨some "sk-key", none, none⟩
    ⟨some "", [], none, some "data:image/png;base64,AAAA"⟩
    (.ok "hi" ⟨1, 1, 2⟩) (by decide) rfl

end BarbaraPDF

namespace BarbaraPDF

/-- C4: a `conversationHistory` entry with a non-empty image reference is
translated into a multi-part content block with the original text first and
the image reference second, both preserved; an entry without an image is
translated to plain text content. -/
theorem history_entry_translation (msg : HistMsg) :
    (∀ img, msg.image = some img → img ≠ "" →
      (mapHistMsg msg).content = .parts [.text msg.content, .imageUrl img]) ∧
    (msg.image = none → (mapHistMsg msg).content = .plain msg.content) := by
  constructor
  · intro img himg hne
    have ht : optTruthy (some img) = true := by
      show (!img.isEmpty) = true
      cases h : img.isEmpty
      · rfl
      · exact absurd (String.isEmpty_iff img |>.mp h) hne
    simp [mapHistMsg, himg, ht]
  · intro himg
    have ht : optTruthy msg.image = false := by rw [himg]; rfl
    simp [mapHistMsg, ht]

/-- C4 witness at a concrete image-bearing history entry. -/
theorem history_entry_translation_witness :
    (mapHistMsg ⟨"user", "look at this", some "data:image/png;base64,BBBB"⟩).content =
      .parts [.text "look at this", .imageUrl "data:image/png;base64,BBBB"] ∧
    (mapHistMsg ⟨"assistant", "sure", none⟩).content = .plain "sure" :=
  ⟨(history_entry_translation ⟨"user", "look at this", some "data:image/png;base64,BBBB"⟩).1
      "data:image/png;base64,BBBB" rfl (by decide),
   (history_entry_translation ⟨"assistant", "sure", none⟩).2 rfl⟩

/-- C5: when the upstream call fails, status 429 maps to HTTP 429 with the
rate-limit message, 401 to HTTP 401 with the invalid-key message, and 500 to
HTTP 500 with the upstream-error message, independent of the request body. -/
theorem upstream_error_mapping
    (env : Env) (req : TutorRequest) (m : String)
    (hval : invalidRequest req = false)
    (hkey : optTruthy env.OPENAI_API_KEY = true) :
    (handleTutor env req (.err (some 429) m)).status = 429 ∧
    (handleTutor env req (.err (some 429) m)).error =
      some "Rate limit exceeded. Please try again later." ∧
    (handleTutor env req (.err (some 401) m)).status = 401 ∧
    (handleTutor env req (.err (some 401) m)).error =
      some "Invalid OpenAI API key" ∧
    (handleTutor env req (.err (some 500) m)).status = 500 ∧
    (handleTutor env req (.err (some 500) m)).error =
      some "OpenAI service error. Please try again later." := by
  unfold handleTutor
  rw [hval, hkey]
  norm_num

/-- C5 witness: the three upstream statuses at a concrete request. -/
theorem upstream_error_mapping_witness :
    (handleTutor ⟨some "sk-key", none, none⟩ ⟨some "hello", [], none, none⟩
      (.err (some 429) "rate")).status = 429 ∧
    (handleTutor ⟨some "sk-key", none, none⟩ ⟨some "hello", [], none, none⟩
      (.err (some 429) "rate")).error =
      some "Rate limit exceeded. Please try again later." ∧
    (handleTutor ⟨some "sk-key", none, none⟩ ⟨some "hello", [], none, none⟩
      (.err (some 401) "rate")).status = 401 ∧
    (handleTutor ⟨some "sk-key", none, none⟩ ⟨some "hello", [], none, none⟩
      (.err (some 401) "rate")).error = some "Invalid OpenAI API key" ∧
    (handleTutor ⟨some "sk-key", none, none⟩ ⟨some "hello", [], none, none⟩
      (.err (some 500) "rate")).status = 500 ∧
    (handleTutor ⟨some "sk-key", none, none⟩ ⟨some "hello", [], none, none⟩
      (.err (some 500) "rate")).error =
      some "OpenAI service error. Please try again later." :=
  upstream_error_mapping ⟨some "sk-key", none, none⟩ ⟨some "hello", [], none, none⟩
    "rate" (by decide) rfl

/-- C6: an upstream failure whose status is none of 401, 429, 500 yields
HTTP 500 with the generic failure message; the underlying detail string is
echoed exactly in development mode, and in particular suppressed in
production. -/
theorem unknown_error_mapping
    (env : Env) (req : TutorRequest) (st : Option Nat) (m : String)
    (hval : invalidRequest req = false)
    (hkey : optTruthy env.OPENAI_API_KEY = true)
    (h401 : st ≠ some 401) (h429 : st ≠ some 429) (h500 : st ≠ some 500) :
    (handleTutor env req (.err st m)).status = 500 ∧
    (handleTutor env req (.err st m)).error = some "Failed to get AI response" ∧
    (handleTutor env req (.err st m)).details =
      (if env.NODE_ENV = some "development" then some m else none) ∧
    (env.NODE_ENV = some "production" →
      (handleTutor env req (.err st m)).details = none) ∧
    ((handleTutor env req (.err st m)).details ≠ none →
      env.NODE_ENV = some "development") := by
  unfold handleTutor
  rw [hval, hkey]
  simp only [Bool.false_eq_true, if_false, Bool.not_true, h401, h429, h500,
    ite_false]
  refine ⟨by simp [h401, h429, h500], by simp [h401, h429, h500], ?_, ?_, ?_⟩
  · simp [h401, h429, h500]
  · intro hprod
    simp [h401, h429, h500, hprod]
  · intro hdet
    by_contra hdev
    apply hdet
    simp [h401, h429, h500, hdev]

/-- C6 witness: a status-less upstream failure in production mode. -/
theorem unknown_error_mapping_witness :
    (handleTutor ⟨some "sk-key", some "production", none⟩
      ⟨some "hello", [], none, none⟩ (.err none "socket hang up")).status = 500 ∧
    (handleTutor ⟨some "sk-key", some "production", none⟩
      ⟨some "hello", [], none, none⟩ (.err none "socket hang up")).error =
      some "Failed to get AI response" ∧
    (handleTutor ⟨some "sk-key", some "production", none⟩
      ⟨some "hello", [], none, none⟩ (.err none "socket hang up")).details =
      (if (some "production" : Option String) = some "development" then
        some "socket hang up" else none) ∧
    ((some "production" : Option String) = some "production" →
      (handleTutor ⟨some "sk-key", some "production", none⟩
        ⟨some "hello", [], none, none⟩ (.err none "socket hang up")).details = none) ∧
    ((handleTutor ⟨some "sk-key", some "production", none⟩
      ⟨some "hello", [], none, none⟩ (.err none "socket hang up")).details ≠ none →
      (some "production" : Option String) = some "development") :=
  unknown_error_mapping ⟨some "sk-key", some "production", none⟩
    ⟨some "hello", [], none, none⟩ none "socket hang up"
    (by decide) rfl (by decide) (by decide) (by decide)

/-- C7 counterexample: with the default allow-list, a request whose Origin
header is present but empty is falsy in the code's check and therefore
allowed and passed to the handler, although the empty string is not in the
allow-list — so an Origin-bearing request is not allowed only when its
origin matches the allow-list. -/
theorem cors_policy_counterexample :
    corsAllows ⟨none, none, none⟩ (some "") = true ∧
    ("" ∈ allowedOrigins ⟨none, none, none⟩ → False) ∧
    serveTutor ⟨none, none, none⟩ (some "") ⟨some "hi", [], none, none⟩
      (.err none "e") ≠ none := by
  decide

/-- C7 (amended): a request whose Origin header is absent or empty (both
falsy in the code's check) is allowed; one with a non-empty Origin value is
allowed exactly when the origin is in the configured allow-list, which
defaults to the two fixed origins; a rejected origin never reaches the
handler logic. -/
theorem cors_policy
    (env : Env) (origin : Option String) (req : TutorRequest)
    (upstream : UpstreamOutcome) :
    (optTruthy origin = false → corsAllows env origin = true) ∧
    (∀ o, origin = some o → o ≠ "" →
      (corsAllows env origin = true ↔ o ∈ allowedOrigins env)) ∧
    (env.ALLOWED_ORIGINS = none →
      allowedOrigins env = ["http://localhost:5173", "https://barbarapdfeditor.net"]) ∧
    (corsAllows env origin = false →
      serveTutor env origin req upstream = none) := by
  refine ⟨?_, ?_, ?_, ?_⟩
  · intro h
    unfold corsAllows
    rw [h]
    rfl
  · intro o h hne
    have ht : optTruthy origin = true := by
      rw [h]
      show (!o.isEmpty) = true
      cases hh : o.isEmpty
      · rfl
      · exact absurd (String.isEmpty_iff o |>.mp hh) hne
    unfold corsAllows
    rw [ht, h]
    simp
  · intro h
    unfold allowedOrigins
    rw [h]
  · intro h
    unfold serveTutor
    rw [h]
    rfl

/-- C7 witness: with no ALLOWED_ORIGINS configured, the default list is in
force, a foreign origin is turned away before the handler, and a missing
Origin header is let through. -/
theorem cors_policy_witness :
    corsAllows ⟨some "sk-key", none, none⟩ none = true ∧
    (corsAllows ⟨some "sk-key", none, none⟩ (some "https://evil.example") = true ↔
      "https://evil.example" ∈ allowedOrigins ⟨some "sk-key", none, none⟩) ∧
    allowedOrigins ⟨some "sk-key", none, none⟩ =
      ["http://localhost:5173", "https://barbarapdfeditor.net"] ∧
    serveTutor ⟨some "sk-key", none, none⟩ (some "https://evil.example")
      ⟨some "hello", [], none, none⟩ (.ok "hi" ⟨1, 1, 2⟩) = none := by
  obtain ⟨h1, h2, h3, h4⟩ := cors_policy ⟨some "sk-key", none, none⟩
    (some "https://evil.example") ⟨some "hello", [], none, none⟩ (.ok "hi" ⟨1, 1, 2⟩)
  refine ⟨?_, h2 "https://evil.example" rfl (by decide), h3 rfl, h4 (by decide)⟩
  exact (cors_policy ⟨some "sk-key", none, none⟩ none
    ⟨some "hello", [], none, none⟩ (.ok "hi" ⟨1, 1, 2⟩)).1 rfl

end BarbaraPDF

namespace BarbaraPDF

/-- C8 counterexample: with the credential variable set to the empty string
the variable is set, yet openaiConfigured is reported false, so the body
does not reflect whether the variable is set. -/
theorem health_configured_counterexample :
    (⟨some "", none, none⟩ : Env).OPENAI_API_KEY ≠ none ∧
    (healthHandler ⟨some "", none, none⟩).2.openaiConfigured = false := by
  decide

/-- C8 (amended): GET /health always returns HTTP 200 with status ok, and
openaiConfigured is true exactly when the credential variable is set to a
non-empty string. -/
theorem health_reports_configuration (env : Env) :
    (healthHandler env).1 = 200 ∧
    (healthHandler env).2.status = "ok" ∧
    ((healthHandler env).2.openaiConfigured = true ↔
      ∃ s, env.OPENAI_API_KEY = some s ∧ s ≠ "") := by
  refine ⟨rfl, rfl, ?_⟩
  cases hk : env.OPENAI_API_KEY with
  | none => simp [healthHandler, optTruthy, hk]
  | some s =>
    have hh : (healthHandler env).2.openaiConfigured = !s.isEmpty := by
      simp [healthHandler, optTruthy, hk]
    rw [hh]
    constructor
    · intro ht
      refine ⟨s, rfl, ?_⟩
      intro hemp
      rw [hemp] at ht
      exact absurd ht (by decide)
    · rintro ⟨t, hts, htne⟩
      obtain rfl := Option.some.inj hts
      cases h : s.isEmpty
      · rfl
      · exact absurd (String.isEmpty_iff s |>.mp h) htne

/-- C9: for a request with a truthy image and an absent or empty message
that reaches the upstream call, the current-message text part sent upstream
is the fixed fallback question, not the empty message. -/
theorem image_fallback_text
    (env : Env) (req : TutorRequest) (upstream : UpstreamOutcome)
    (himg : optTruthy req.image = true)
    (hmsg : req.message = none ∨ req.message = some "")
    (hkey : optTruthy env.OPENAI_API_KEY = true) :
    (handleTutor env req upstream).messagesSent = some (buildMessages req) ∧
    (buildMessages req).getLast? = some
      { role := "user"
        content := .parts [.text "What do you see in this image?",
          .imageUrl (req.image.getD "")] } := by
  have hval := invalidRequest_of_image req himg
  obtain ⟨-, -, hms⟩ := handleTutor_reaches env req upstream hval hkey
  refine ⟨hms, ?_⟩
  have hmt : optTruthy req.message = false := by
    rcases hmsg with h | h <;> rw [h] <;> rfl
  unfold buildMessages
  rw [getLast?_cons_append_singleton]
  unfold currentMessage
  rw [himg, hmt]
  simp

/-- C9 witness: a message-less image request sends the fallback question. -/
theorem image_fallback_text_witness :
    (handleTutor ⟨some "sk-key", none, none⟩
      ⟨none, [], none, some "data:image/png;base64,CCCC"⟩
      (.ok "hi" ⟨1, 1, 2⟩)).messagesSent =
      some (buildMessages ⟨none, [], none, some "data:image/png;base64,CCCC"⟩) ∧
    (buildMessages ⟨none, [], none, some "data:image/png;base64,CCCC"⟩).getLast? =
      some { role := "user"
             content := .parts [.text "What do you see in this image?",
               .imageUrl ((some "data:image/png;base64,CCCC" : Option String).getD "")] } :=
  image_fallback_text ⟨some "sk-key", none, none⟩
    ⟨none, [], none, some "data:image/png;base64,CCCC"⟩ (.ok "hi" ⟨1, 1, 2⟩)
    (by decide) (Or.inl rfl) rfl

/-- C10: an image field equal to the empty string is treated as if absent:
with an empty or whitespace-only message the request is rejected with 400
and no upstream call; with a message that passes validation and the key
configured, the text-only model is selected. -/
theorem empty_string_image_as_absent
    (env : Env) (req : TutorRequest) (upstream : UpstreamOutcome)
    (himg : req.image = some "") :
    ((req.message = none ∨ ∃ s, req.message = some s ∧ jsTrim s = "") →
      (handleTutor env req upstream).status = 400 ∧
      (handleTutor env req upstream).upstreamCalled = false) ∧
    (invalidRequest req = false → optTruthy env.OPENAI_API_KEY = true →
      (handleTutor env req upstream).modelUsed = some "gpt-4o-mini") := by
  have himgf : optTruthy req.image = false := by rw [himg]; rfl
  constructor
  · intro hmsg
    have hinv : invalidRequest req = true := by
      unfold invalidRequest
      rw [himgf]
      rcases hmsg with h | ⟨s, hs, hts⟩
      · rw [h]; rfl
      · rw [hs]; simp [optTruthy, hts]
    simp [handleTutor, hinv]
  · intro hval hkey
    obtain ⟨-, hm, -⟩ := handleTutor_reaches env req upstream hval hkey
    rw [hm, himgf]
    rfl

/-- C10 witness: with an empty-string image, an empty message is rejected
with 400 and a real message selects gpt-4o-mini. -/
theorem empty_string_image_as_absent_witness :
    (handleTutor ⟨some "sk-key", none, none⟩ ⟨some " ", [], none, some ""⟩
      (.ok "hi" ⟨1, 1, 2⟩)).status = 400 ∧
    (handleTutor ⟨some "sk-key", none, none⟩ ⟨some " ", [], none, some ""⟩
      (.ok "hi" ⟨1, 1, 2⟩)).upstreamCalled = false ∧
    (handleTutor ⟨some "sk-key", none, none⟩ ⟨some "hello", [], none, some ""⟩
      (.ok "hi" ⟨1, 1, 2⟩)).modelUsed = some "gpt-4o-mini" :=
  ⟨((empty_string_image_as_absent ⟨some "sk-key", none, none⟩
      ⟨some " ", [], none, some ""⟩ (.ok "hi" ⟨1, 1, 2⟩) rfl).1
      (Or.inr ⟨" ", rfl, by decide⟩)).1,
   ((empty_string_image_as_absent ⟨some "sk-key", none, none⟩
      ⟨some " ", [], none, some ""⟩ (.ok "hi" ⟨1, 1, 2⟩) rfl).1
      (Or.inr ⟨" ", rfl, by decide⟩)).2,
   (empty_string_image_as_absent ⟨some "sk-key", none, none⟩
      ⟨some "hello", [], none, some ""⟩ (.ok "hi" ⟨1, 1, 2⟩) rfl).2
      (by decide) rfl⟩

end BarbaraPDF
